import Mathlib

/-!
Verification of the Fan Engagement backend (FastAPI + SQLite).

Shallow embedding of `backend/app/memory/database.py`,
`backend/app/predictions/engine.py` and the route handlers of
`backend/app/main.py`.  The SQLite store is modelled as a functional
state holding the rows of each table; each `Database` method becomes a
pure function on that state, and each state-mutating HTTP endpoint
becomes an operation of a step relation.  SQLite's dynamic typing of the
`current_level` column (the code writes both integers and strings into
it) is modelled by the `DBVal` sum; `REAL` score columns are modelled by
`ℚ` (every computation the code performs on them here is exact);
`random.random()` and `random.sample` are modelled by explicit
randomness parameters; SQLite transaction rollback in `save_prediction`
is modelled by a failure oracle for the statements of the transaction.
-/

namespace FanEngagement

/-- A dynamically typed SQLite cell value: the code stores both integers
(e.g. the `current_level` default `1`) and strings (e.g. `"Medium"`) in
the same column. -/
inductive DBVal where
  | dbInt (n : Int)
  | dbStr (s : String)
deriving DecidableEq, Repr

/-- A row of the `users` table (`database.py`, `init_db`). -/
structure UserRow where
  user_id : String
  username : String
  favorite_team : String
  total_points : Int
  badges : List String
deriving DecidableEq, Repr

/-- A row of the `quiz_progress` table (UNIQUE(user_id, team)). -/
structure ProgressRow where
  user_id : String
  team : String
  current_level : DBVal
  current_question_index : Int
  level_score : Int
  total_correct : Int
deriving DecidableEq, Repr

/-- A row of the `completed_levels` table (UNIQUE(user_id, team, level)). -/
structure CompletedRow where
  user_id : String
  team : String
  level : DBVal
  score : ℚ
deriving DecidableEq, Repr

/-- A row of the `asked_questions` table (UNIQUE(user_id, team, question_id)). -/
structure AskedRow where
  user_id : String
  team : String
  question_id : String
deriving DecidableEq, Repr

/-- A row of the `predictions` table. -/
structure PredictionRow where
  user_id : String
  team1 : String
  team2 : String
  predicted_winner : String
  predicted_score : String
  explanation : String
  actual_outcome : Option String
  points_earned : Int
deriving DecidableEq, Repr

/-- A row of the `quiz_history` table. -/
structure QuizHistoryRow where
  user_id : String
  team : String
  difficulty : String
  score : ℚ
deriving DecidableEq, Repr

/-- A row of the `chat_history` table. -/
structure ChatRow where
  user_id : String
  message : String
  response : String
deriving DecidableEq, Repr

/-- The whole SQLite store: one list of rows per table, in insertion
order. -/
structure State where
  users : List UserRow
  progress : List ProgressRow
  completed : List CompletedRow
  asked : List AskedRow
  predictions : List PredictionRow
  quizHistory : List QuizHistoryRow
  chatHistory : List ChatRow
deriving DecidableEq, Repr

/-- The store right after `init_db` on a fresh database file: all tables
empty. -/
def emptyState : State :=
  ⟨[], [], [], [], [], [], []⟩

/-! ### Database methods (`backend/app/memory/database.py`) -/

/-- `Database.get_user`: `SELECT * FROM users WHERE user_id = ?`
(first matching row, `None` if absent). -/
def get_user (st : State) (uid : String) : Option UserRow :=
  st.users.find? (fun r => r.user_id == uid)

/-- `Database.create_user`: guarded `INSERT INTO users`; the PRIMARY KEY
conflict (`IntegrityError`) is swallowed and reported as failure.
Returns the new state and whether the insert succeeded. -/
def create_user (st : State) (uid uname fav : String) : State × Bool :=
  if st.users.any (fun r => r.user_id == uid) then
    (st, false)
  else
    ({ st with users := st.users ++ [⟨uid, uname, fav, 0, []⟩] }, true)

/-- `Database.update_user_points`:
`UPDATE users SET total_points = total_points + ? WHERE user_id = ?`.
Rows not matching the `WHERE` clause are untouched; if no row matches,
the statement is a no-op. -/
def update_user_points (st : State) (uid : String) (points : Int) : State :=
  { st with
    users := st.users.map fun r =>
      if r.user_id == uid then { r with total_points := r.total_points + points } else r }

/-- `Database.add_quiz_points`: delegates to `update_user_points`. -/
def add_quiz_points (st : State) (uid : String) (points : Int) : State :=
  update_user_points st uid points

/-- `Database.add_badge`: reads the badge list of the user row and
appends the badge if absent. -/
def add_badge (st : State) (uid badge : String) : State :=
  { st with
    users := st.users.map fun r =>
      if r.user_id == uid then
        if badge ∈ r.badges then r else { r with badges := r.badges ++ [badge] }
      else r }

/-- `Database.get_quiz_progress`: first `quiz_progress` row for
`(user_id, team)`, if any. -/
def get_quiz_progress (st : State) (uid team : String) : Option ProgressRow :=
  st.progress.find? (fun r => r.user_id == uid && r.team == team)

/-- The dict returned by `Database.create_quiz_progress`:
`{"success": True}` on insert, `{"success": True, "existing": True}`
when the unique-constraint conflict was swallowed. -/
structure CreateProgressResult where
  success : Bool
  existing : Bool
deriving DecidableEq, Repr

/-- `Database.create_quiz_progress`: guarded
`INSERT INTO quiz_progress (...) VALUES (?, ?, 1, 0, 0, 0)`; the
`UNIQUE(user_id, team)` conflict (`IntegrityError`) is swallowed and
still reported as success. -/
def create_quiz_progress (st : State) (uid team : String) : State × CreateProgressResult :=
  if st.progress.any (fun r => r.user_id == uid && r.team == team) then
    (st, ⟨true, true⟩)
  else
    ({ st with progress := st.progress ++ [⟨uid, team, .dbInt 1, 0, 0, 0⟩] }, ⟨true, false⟩)

/-- `Database.update_quiz_progress`: unconditional
`UPDATE quiz_progress SET ... WHERE user_id = ? AND team = ?`. -/
def update_quiz_progress (st : State) (uid team : String) (lvl : DBVal)
    (qIndex lvlScore totCorrect : Int) : State :=
  { st with
    progress := st.progress.map fun r =>
      if r.user_id == uid && r.team == team then
        { r with current_level := lvl, current_question_index := qIndex,
                 level_score := lvlScore, total_correct := totCorrect }
      else r }

/-- `Database.complete_level`: `INSERT OR REPLACE INTO completed_levels`
under `UNIQUE(user_id, team, level)` — any conflicting row is replaced
by the fresh one. -/
def complete_level (st : State) (uid team : String) (lvl : DBVal) (score : ℚ) : State :=
  { st with
    completed :=
      (st.completed.filter fun r =>
        !(r.user_id == uid && r.team == team && r.level == lvl)) ++ [⟨uid, team, lvl, score⟩] }

/-- `Database.add_quiz_attempt`: plain `INSERT INTO quiz_history`. -/
def add_quiz_attempt (st : State) (uid team difficulty : String) (score : ℚ) : State :=
  { st with quizHistory := st.quizHistory ++ [⟨uid, team, difficulty, score⟩] }

/-- `Database.record_asked_question`: guarded `INSERT INTO
asked_questions`; the `UNIQUE(user_id, team, question_id)` conflict is
swallowed. -/
def record_asked_question (st : State) (uid team qid : String) : State :=
  if st.asked.any (fun r => r.user_id == uid && r.team == team && r.question_id == qid) then
    st
  else
    { st with asked := st.asked ++ [⟨uid, team, qid⟩] }

/-- `Database.get_asked_questions`:
`SELECT question_id FROM asked_questions WHERE user_id = ? AND team = ?`. -/
def get_asked_questions (st : State) (uid team : String) : List String :=
  (st.asked.filter fun r => r.user_id == uid && r.team == team).map (·.question_id)

/-- `Database.reset_asked_questions`:
`DELETE FROM asked_questions WHERE user_id = ? AND team = ?`. -/
def reset_asked_questions (st : State) (uid team : String) : State :=
  { st with asked := st.asked.filter fun r => !(r.user_id == uid && r.team == team) }

/-- `Database.add_chat_message`: plain `INSERT INTO chat_history`. -/
def add_chat_message (st : State) (uid msg resp : String) : State :=
  { st with chatHistory := st.chatHistory ++ [⟨uid, msg, resp⟩] }

/-- `Database.add_prediction` (used by the chat agent): inserts a
predictions row with `actual_outcome` NULL and `points_earned`
defaulting to `0`; does not touch `users`. -/
def add_prediction (st : State) (uid t1 t2 winner score expl : String) : State :=
  { st with predictions := st.predictions ++ [⟨uid, t1, t2, winner, score, expl, none, 0⟩] }

/-- An entry of the list returned by `Database.get_leaderboard`. -/
structure LeaderboardEntry where
  rank : Nat
  user_id : String
  username : String
  points : Int
  team : String
deriving DecidableEq, Repr

/-- The `ORDER BY total_points DESC` order on user rows (ties resolved
by the sort's own stable order, matching SQLite's freedom to order equal
keys arbitrarily). -/
def byPointsDesc (a b : UserRow) : Prop := b.total_points ≤ a.total_points

instance : DecidableRel byPointsDesc := fun a b =>
  inferInstanceAs (Decidable (b.total_points ≤ a.total_points))

instance : IsTotal UserRow byPointsDesc :=
  ⟨fun a b => (le_total b.total_points a.total_points)⟩

instance : IsTrans UserRow byPointsDesc :=
  ⟨fun _ _ _ hab hbc => le_trans hbc hab⟩

/-- `Database.get_leaderboard`: `SELECT ... FROM users ORDER BY
total_points DESC LIMIT ?`, then `rank := idx + 1` by enumeration
position. -/
def get_leaderboard (st : State) (limit : Nat) : List LeaderboardEntry :=
  (((st.users.insertionSort byPointsDesc).take limit).enum).map fun p =>
    ⟨p.1 + 1, p.2.user_id, p.2.username, p.2.total_points, p.2.favorite_team⟩

/-- Failure oracle for the two SQL statements and the `COMMIT` of the
`save_prediction` transaction: each flag tells whether that statement
raises. -/
structure FailOracle where
  insertFails : Bool
  updateFails : Bool
  commitFails : Bool
deriving DecidableEq, Repr

/-- The oracle for a run in which every statement succeeds. -/
def FailOracle.ok : FailOracle := ⟨false, false, false⟩

/-- Whether the whole `save_prediction` transaction commits. -/
def FailOracle.succeeds (o : FailOracle) : Bool :=
  !o.insertFails && !o.updateFails && !o.commitFails

/-- `Database.save_prediction`: inside one transaction, `INSERT INTO
predictions` (note: the code stores the sport string in the
`predicted_score` column and the system outcome in `actual_outcome`),
then `UPDATE users SET total_points = total_points + ?`; on any
exception the transaction is rolled back (`conn.rollback()`), so the
pre-call state is kept; the `COMMIT` publishes both changes or none. -/
def save_prediction (st : State) (uid t1 t2 user_prediction system_outcome : String)
    (points : Int) (expl sport : String) (o : FailOracle) : State × Bool :=
  if o.insertFails then
    (st, false)
  else
    -- uncommitted transaction state after the INSERT
    let st1 := { st with predictions :=
      st.predictions ++ [⟨uid, t1, t2, user_prediction, sport, expl, some system_outcome, points⟩] }
    if o.updateFails then
      (st, false)   -- rollback discards the uncommitted INSERT
    else
      let st2 := update_user_points st1 uid points
      if o.commitFails then (st, false) else (st2, true)

/-! ### Prediction engine (`backend/app/predictions/engine.py`) -/

/-- One value of the `TEAM_RANKINGS` dictionary. -/
structure TeamData where
  ranking : Int
  strength : Int
  recent_form : Int
  key_players : List String
deriving DecidableEq, Repr

/-- The `TEAM_RANKINGS` dictionary of `engine.py`. -/
def TEAM_RANKINGS : List (String × TeamData) := [
  ("Real Madrid", ⟨1, 95, 8, ["Kylian Mbappe", "Vinicius Jr.", "Federico Valverde"]⟩),
  ("Manchester City", ⟨2, 94, 9, ["Erling Haaland", "Ryan Cherki", "John Stones"]⟩),
  ("Barcelona", ⟨3, 92, 8, ["Lewandowski", "Pedri", "Garcia"]⟩),
  ("Liverpool", ⟨4, 91, 8, ["Mohamed Salah", "Hugo Ekitike", "Virgil van Dijk"]⟩),
  ("Bayern Munich", ⟨5, 90, 8, ["Harry Kane", "Joshua Kimmich", "Manuel Neuer"]⟩),
  ("Arsenal", ⟨6, 89, 9, ["Bukayo Saka", "Martinelli", "Declan Rice"]⟩),
  ("Juventus", ⟨7, 88, 7, ["Juan Cuadrado", "Alexis Sánchez", "Gleison Bremer"]⟩),
  ("Manchester United", ⟨8, 87, 7, ["Bruno Fernandes", "Bryan Mbeumo", "Casemiro"]⟩),
  ("Paris Saint-Germain", ⟨9, 86, 8, ["Nuno Mendes", "Ousmane Dembele", "Vitinha"]⟩),
  ("Inter Milan", ⟨10, 85, 8, ["Lautaro Martínez", "Nicolo Barella", "Francesco Acerbi"]⟩),
  ("Chelsea", ⟨11, 84, 7, ["Cole Palmer", "Moises Caicedo", "Robert Sánchez"]⟩),
  ("Atletico Madrid", ⟨12, 83, 7, ["Giuliano Simeone", "Julian Alvarez", "Stefan Savic"]⟩),
  ("Tottenham", ⟨13, 82, 7, ["Richarlison ", "Xavi Simons", "Cristian Romero"]⟩),
  ("Borussia Dortmund", ⟨14, 81, 8, ["Jobe Bellingham", "Karim Adeyemi", "Gregor Kobel"]⟩),
  ("Sevilla", ⟨15, 80, 6, ["Jesús Navas", "Rafa Mir", "Lopetegui"]⟩),
  ("Napoli", ⟨16, 79, 7, ["Victor Osimhen", "Matteo Politano", "Kalidou Koulibaly"]⟩),
  ("Villarreal", ⟨17, 78, 6, ["Gerard Moreno", "Samuel Chukwueze", "Pau Torres"]⟩),
  ("Valencia", ⟨18, 77, 6, ["Hugo Duro", "Vinícius Souza", "Omar Alderete"]⟩),
  ("Lecce", ⟨19, 76, 5, ["Morten Hjulmand", "Lameck Banda", "Wladimiro Falcone"]⟩),
  ("Brentford", ⟨20, 75, 6, ["Mathias Jensen", "Bryan Mbeumo", "Mark Flekken"]⟩),
  ("Denver Nuggets", ⟨1, 96, 9, ["Nikola Jokic", "Jamal Murray", "Michael Porter Jr."]⟩),
  ("Boston Celtics", ⟨2, 95, 9, ["Jayson Tatum", "Jaylen Brown", "Derrick White"]⟩),
  ("Los Angeles Lakers", ⟨3, 94, 8, ["Luka Doncic", "LeBron James", "Austin Reaves"]⟩),
  ("Golden State Warriors", ⟨4, 92, 8, ["Stephen Curry", "Andrew Wiggins", "Jonathan Kuminga"]⟩),
  ("Phoenix Suns", ⟨5, 91, 8, ["Kevin Durant", "Devin Booker", "Bradley Beal"]⟩),
  ("Miami Heat", ⟨6, 89, 7, ["Bam Adebayo", "Tyler Herro", "Jaime Jaquez Jr."]⟩),
  ("Dallas Mavericks", ⟨7, 88, 5, ["Kyrie Irving", "Anthony Davis", "Klay Thompson"]⟩),
  ("Milwaukee Bucks", ⟨8, 87, 7, ["Giannis Antetokounmpo", "Damian Lillard", "Khris Middleton"]⟩),
  ("New York Knicks", ⟨9, 86, 7, ["Jalen Brunson", "Karl-Anthony Towns", "Josh Hart"]⟩),
  ("Chicago Bulls", ⟨10, 85, 6, ["Coby White", "Josh Giddey", "Zach LaVine"]⟩),
  ("Kansas City Chiefs", ⟨1, 95, 9, ["Patrick Mahomes", "Travis Kelce", "Rashee Rice"]⟩),
  ("San Francisco 49ers", ⟨2, 94, 8, ["Brock Purdy", "Christian McCaffrey", "George Kittle"]⟩),
  ("Buffalo Bills", ⟨3, 93, 8, ["Josh Allen", "James Cook", "Khalil Shakir"]⟩),
  ("Detroit Lions", ⟨4, 92, 8, ["Jared Goff", "Amon-Ra St. Brown", "Jahmyr Gibbs"]⟩),
  ("Dallas Cowboys", ⟨5, 90, 7, ["Dak Prescott", "George Pickens", "CeeDee Lamb"]⟩),
  ("Green Bay Packers", ⟨6, 89, 7, ["Jordan Love", "Josh Jacobs", "Jayden Reed"]⟩),
  ("New England Patriots", ⟨7, 88, 6, ["Drake Maye", "Rhamondre Stevenson", "Christian Gonzalez"]⟩),
  ("Miami Dolphins", ⟨8, 87, 8, ["Tua Tagovailoa", "Tyreek Hill", "Jaylen Waddle"]⟩),
  ("Philadelphia Eagles", ⟨9, 86, 7, ["Jalen Hurts", "Saquon Barkley", "A.J. Brown"]⟩),
  ("Pittsburgh Steelers", ⟨10, 85, 6, ["T.J. Watt", "Jalen Ramsey", "Najee Harris"]⟩)]

/-- `TEAM_RANKINGS.get(team)` with no default: `None` when absent. -/
def lookupTeam? (team : String) : Option TeamData :=
  (TEAM_RANKINGS.find? (fun p => p.1 == team)).map (·.2)

/-- `TEAM_RANKINGS.get(team, {'ranking': 50, 'strength': 50,
'recent_form': 5, 'key_players': ['Player 1']})`. -/
def lookupTeam (team : String) : TeamData :=
  (lookupTeam? team).getD ⟨50, 50, 5, ["Player 1"]⟩

/-- The score `strength * 0.6 + recent_form * 5 + (100 - ranking)`
of `generate_prediction`. -/
def teamScore (t : TeamData) : ℚ :=
  (t.strength : ℚ) * (6 / 10) + (t.recent_form : ℚ) * 5 + (100 - (t.ranking : ℚ))

/-- The dictionary returned by `PredictionEngine.generate_prediction`. -/
structure PredictionResult where
  predicted_winner : String
  predicted_loser : String
  confidence : Int
  explanation : String
  winner_strength : Int
  loser_strength : Int
deriving DecidableEq, Repr

/-- `PredictionEngine.generate_prediction`.  `rand` stands for the
`random.random()` draw (a value in `[0, 1)`). -/
def generate_prediction (team1 team2 : String) (_sport : String) (rand : ℚ) :
    PredictionResult :=
  let t1_data := lookupTeam team1
  let t2_data := lookupTeam team2
  let t1_score := teamScore t1_data
  let t2_score := teamScore t2_data
  let total := t1_score + t2_score
  let t1_win_prob : ℚ := if total > 0 then t1_score / total else 1 / 2
  let (winner, loser, confidence) :=
    if rand < t1_win_prob then
      (team1, team2, ⌊t1_win_prob * 100⌋)
    else
      (team2, team1, ⌊(1 - t1_win_prob) * 100⌋)
  -- `TEAM_RANKINGS.get(winner, {})` followed by `.get(field, default)`
  let winner_data := lookupTeam? winner
  let loser_data := lookupTeam? loser
  let winner_strength := (winner_data.map (·.strength)).getD 50
  let loser_strength := (loser_data.map (·.strength)).getD 50
  let expl0 := winner ++ " should win with " ++ toString confidence ++ "% confidence. "
  let expl1 :=
    if winner_strength > loser_strength + 10 then
      expl0 ++ "Superior team strength (" ++ toString winner_strength ++ " vs " ++
        toString loser_strength ++ "). "
    else if (winner_data.map (·.recent_form)).getD 5 > (loser_data.map (·.recent_form)).getD 5 + 1 then
      expl0 ++ "Better recent form. "
    else if (winner_data.map (·.ranking)).getD 50 < (loser_data.map (·.ranking)).getD 50 then
      expl0 ++ "Higher ranking (" ++ toString ((winner_data.map (·.ranking)).getD 50) ++ " vs " ++
        toString ((loser_data.map (·.ranking)).getD 50) ++ "). "
    else expl0
  let key_player := ((winner_data.map (·.key_players)).getD ["Key Player"]).headD "Key Player"
  let explanation := expl1 ++ "Key player " ++ key_player ++ " expected to perform well."
  ⟨winner, loser, confidence, explanation, winner_strength, loser_strength⟩

/-- `PredictionEngine.evaluate_prediction`: exact string comparison of
the user's choice against the system outcome; soccer distinguishes the
`"Draw"` guess (50 points) from a named winner (30 points); other sports
award 25 points; wrong guesses award 0. -/
def evaluate_prediction (user_prediction system_outcome sport : String) : Bool × Int :=
  if sport == "soccer" then
    if user_prediction == "Draw" then
      let is_correct := system_outcome == "Draw"
      (is_correct, if is_correct then 50 else 0)
    else
      let is_correct := user_prediction == system_outcome
      (is_correct, if is_correct then 30 else 0)
  else
    let is_correct := user_prediction == system_outcome
    (is_correct, if is_correct then 25 else 0)

/-! ### Quiz endpoints (`backend/app/main.py`) -/

/-- A record of the static question bank `questions.json`. -/
structure Question where
  id : String
  team : String
  level : String
  question : String
  options : List String
  correctAnswerIndex : Option Nat
  explanation : String
deriving DecidableEq, Repr

/-- A question object inside a `QuizSubmissionRequest` (the handler
reads the fields `question`, `options`, `id`, `explanation`). -/
structure QuestionIn where
  question : String
  options : List String
  id : String
  explanation : String
deriving DecidableEq, Repr

/-- The body of `POST /api/quiz/submit` (`QuizSubmissionRequest`);
`answers` is the JSON object mapping stringified question indices to the
selected answer text. -/
structure QuizRequest where
  user_id : String
  team : String
  level : String
  answers : List (String × String)
  questions : List QuestionIn
deriving DecidableEq, Repr

/-- `question_lookup = dict-comprehension keyed by id` — on duplicate ids the
later entry wins, so lookup scans the reversed list. -/
def lookupQuestionById (bank : List Question) (qid : String) : Option Question :=
  bank.reverse.find? (fun q => q.id == qid)

/-- `request.answers.get(str(idx), "")`. -/
def answersGet (answers : List (String × String)) (key : String) : String :=
  ((answers.find? (fun p => p.1 == key)).map (·.2)).getD ""

/-- The `correct_answer` computed by `submit_quiz` for one request
question: the `correctAnswerIndex` of the bank record with the same id,
applied to the **request's** options list; `""` when the id is unknown,
the index is missing, or the index is out of range. -/
def correctAnswerFor (bank : List Question) (qIn : QuestionIn) : String :=
  match lookupQuestionById bank qIn.id with
  | none => ""
  | some qd =>
    match qd.correctAnswerIndex with
    | none => ""
    | some i => (qIn.options.getD i "")

/-- `str.lower()` (ASCII behaviour), computed on the character list. -/
def pyLower (s : String) : String :=
  String.mk (s.data.map Char.toLower)

/-- `str.strip()` (ASCII whitespace behaviour), computed on the
character list. -/
def pyStrip (s : String) : String :=
  String.mk (((s.data.dropWhile Char.isWhitespace).reverse.dropWhile Char.isWhitespace).reverse)

/-- The per-question correctness test of `submit_quiz`:
`user_answer.strip().lower() == correct_answer.strip().lower()`. -/
def answerIsCorrect (answers : List (String × String)) (idx : Nat) (qIn : QuestionIn)
    (bank : List Question) : Bool :=
  pyLower (pyStrip (answersGet answers (toString idx)))
    == pyLower (pyStrip (correctAnswerFor bank qIn))

/-- `correct_count` of a submission: correct answers among the
enumerated request questions. -/
def correctCount (req : QuizRequest) (bank : List Question) : Nat :=
  req.questions.enum.countP fun p => answerIsCorrect req.answers p.1 p.2 bank

/-- The `level_progression` map of `submit_quiz` and
`mark_level_complete`:
`{"Easy": "Medium", "Medium": "Hard", "Hard": "Hard"}.get(level, level)`. -/
def levelProgression (l : String) : String :=
  if l == "Easy" then "Medium"
  else if l == "Medium" then "Hard"
  else if l == "Hard" then "Hard"
  else l

/-- The `level_progression` map of `handle_level_progression_choice`:
`{"Easy": "Medium", "Medium": "Hard", "Hard": None}`; `none` also covers
levels absent from the dict. -/
def levelChoiceNext (l : String) : Option String :=
  if l == "Easy" then some "Medium" else if l == "Medium" then some "Hard" else none

/-- One entry of the `results` list in the `submit_quiz` response. -/
structure ResultEntry where
  question : String
  user_answer : String
  correct_answer : String
  is_correct : Bool
  explanation : String
deriving DecidableEq, Repr

/-- The response of `POST /api/quiz/submit`. -/
structure SubmitResponse where
  score : ℚ
  correct : Nat
  total : Nat
  points_earned : Int
  points_per_question : Int
  level : String
  total_points : Int
  results : List ResultEntry
deriving DecidableEq, Repr

/-- `ensure progress`: lines 290-292 / 576-578 of `main.py` —
`create_quiz_progress` only when `get_quiz_progress` found nothing. -/
def ensureProgress (st : State) (uid team : String) : State :=
  if (get_quiz_progress st uid team).isSome then st
  else (create_quiz_progress st uid team).1

/-- `POST /api/quiz/submit` (`submit_quiz`, `main.py` lines 270-393):
grade every request question against the bank, award `10` points per
correct answer, upsert the completed level, advance the stored level to
`level_progression[request.level]`, and append the attempt to
`quiz_history`. -/
def submit_quiz (st : State) (req : QuizRequest) (bank : List Question) :
    State × SubmitResponse :=
  let st0 := ensureProgress st req.user_id req.team
  let results := req.questions.enum.map fun p =>
    { question := p.2.question
      user_answer := answersGet req.answers (toString p.1)
      correct_answer := correctAnswerFor bank p.2
      is_correct := answerIsCorrect req.answers p.1 p.2 bank
      explanation := p.2.explanation }
  let correct := correctCount req bank
  let total := req.questions.length
  let score : ℚ := if total > 0 then (correct : ℚ) / (total : ℚ) * 100 else 0
  let points : Int := (correct : Int) * 10
  let st1 := add_quiz_points st0 req.user_id points
  let st2 := complete_level st1 req.user_id req.team (.dbStr req.level) score
  let st3 := update_quiz_progress st2 req.user_id req.team
    (.dbStr (levelProgression req.level)) 0 0 0
  let st4 := add_quiz_attempt st3 req.user_id req.team ("level_" ++ req.level) score
  let tp := ((get_user st4 req.user_id).map (·.total_points)).getD 0
  (st4, ⟨score, correct, total, points, 10, req.level, tp, results⟩)

/-- `POST /api/user/{user_id}/progress/{team}/level-choice`: advance via
the choice progression map only when the user continues and a next level
exists; otherwise leave the stored progress alone. -/
def level_choice (st : State) (uid team lvl : String) (cont : Bool) : State :=
  match cont, levelChoiceNext lvl with
  | true, some nxt => update_quiz_progress st uid team (.dbStr nxt) 0 0 0
  | _, _ => st

/-- `POST /api/user/{user_id}/progress/{team}/complete-level`
(`mark_level_complete`): upsert the completed level, then advance the
stored level to `level_progression[level]`. -/
def mark_level_complete (st : State) (uid team lvl : String) (score : ℚ) : State :=
  let st1 := complete_level st uid team (.dbStr lvl) score
  update_quiz_progress st1 uid team (.dbStr (levelProgression lvl)) 0 0 0

/-- `POST /api/user/{user_id}/progress/{team}/update`
(`update_progress`): unconditional overwrite; the endpoint's
`current_level` parameter is an integer. -/
def update_progress (st : State) (uid team : String) (lvl qi ls tc : Int) : State :=
  update_quiz_progress st uid team (.dbInt lvl) qi ls tc

/-- `str.capitalize()` (ASCII behaviour): first character upper-cased,
the rest lower-cased. -/
def pyCapitalize (s : String) : String :=
  match s.data with
  | [] => ""
  | c :: cs => String.mk (c.toUpper :: cs.map Char.toLower)

/-- `random.sample(pool, k)`: `k` draws without replacement, modelled by
a stream of random indices (each draw removes the picked element). -/
def sampleAux : Nat → List Nat → List Question → List Question
  | 0, _, _ => []
  | _ + 1, _, [] => []
  | k + 1, rs, q :: qs =>
    let pool := q :: qs
    let i := rs.headD 0 % pool.length
    let pick := pool.get ⟨i, Nat.mod_lt _ (Nat.succ_pos qs.length)⟩
    pick :: sampleAux k rs.tail (pool.eraseIdx i)

/-- A question as shipped to the frontend by `generate_quiz`
(`correctAnswerIndex` deliberately omitted). -/
structure QuestionOut where
  id : String
  level : String
  team : String
  question : String
  options : List String
  explanation : String
deriving DecidableEq, Repr

/-- Strip a bank record down to its frontend shape. -/
def Question.display (q : Question) : QuestionOut :=
  ⟨q.id, q.level, q.team, q.question, q.options, q.explanation⟩

/-- The successful response of `GET /api/quiz/generate/...`. -/
structure QuizGenResponse where
  level : String
  team : String
  questions : List QuestionOut
  total_questions : Nat
  total_available : Nat
deriving DecidableEq, Repr

/-- `GET /api/quiz/generate/{user_id}/{team}/{level}` (`generate_quiz`,
`main.py` lines 553-626): normalize the level, ensure progress exists,
filter the bank by `(team, level)`, and `random.sample` at most 10
questions from that pool.  `none` models the 400/404 error responses.
Note the selection is made from the **full** `(team, level)` pool: the
`asked_questions` table is never consulted. -/
def generate_quiz (st : State) (uid team lvl : String) (rs : List Nat)
    (bank : List Question) : State × Option QuizGenResponse :=
  let level := pyCapitalize lvl
  if !(level == "Easy" || level == "Medium" || level == "Hard") then
    (st, none)
  else
    let st0 := ensureProgress st uid team
    let pool := bank.filter fun q => q.team == team && q.level == level
    if pool.isEmpty then
      (st0, none)
    else
      let num := min 10 pool.length
      let selected := sampleAux num rs pool
      (st0, some ⟨level, team, selected.map Question.display, selected.length, pool.length⟩)

/-- The `result` object of `POST /api/predictions/submit`; `saved`
records whether `save_prediction` reported success (the handler itself
ignores that flag when shaping the response). -/
structure PredSubmitResponse where
  user_prediction : String
  system_outcome : String
  is_correct : Bool
  points_earned : Int
  explanation : String
  confidence : Int
  saved : Bool
deriving DecidableEq, Repr

/-- `POST /api/predictions/submit` (`submit_prediction`, `main.py` lines
746-793): generate the system outcome, evaluate the user's guess against
it, and persist via `save_prediction`. -/
def submit_prediction (st : State) (uid t1 t2 sport user_prediction : String)
    (rand : ℚ) (o : FailOracle) : State × PredSubmitResponse :=
  let sys := generate_prediction t1 t2 sport rand
  let system_outcome := sys.predicted_winner
  let (is_correct, points) := evaluate_prediction user_prediction system_outcome sport
  let (st', ok) := save_prediction st uid t1 t2 user_prediction system_outcome points
    sys.explanation sport o
  (st', ⟨user_prediction, system_outcome, is_correct, points, sys.explanation,
    sys.confidence, ok⟩)

/-- The database effects of one `POST /api/chat` call
(`Agent.process_message`): create the user if absent (username
`"User_" + user_id[:8]`, default team, zero points), optionally store an
agent-side prediction row (whose `points_earned` defaults to 0), and
append the chat exchange. -/
def agent_chat (st : State) (uid msg resp : String)
    (pred : Option (String × String × String × String × String)) : State :=
  let st0 := if (get_user st uid).isSome then st
             else (create_user st uid ("User_" ++ uid.take 8) "General").1
  let st1 := match pred with
    | none => st0
    | some (t1, t2, winner, score, expl) => add_prediction st0 uid t1 t2 winner score expl
  add_chat_message st1 uid msg resp

/-! ### The system's state-mutating operations -/

/-- One state-mutating call of the exposed surface (HTTP endpoints plus
the remaining write methods of `Database`).  Randomness, external file
contents and SQL failure are explicit parameters. -/
inductive Op where
  | createUserOp (uid uname fav : String)
  | submitQuizOp (req : QuizRequest) (bank : List Question)
  | levelChoiceOp (uid team lvl : String) (cont : Bool)
  | initProgressOp (uid team : String)
  | updateProgressOp (uid team : String) (lvl qi ls tc : Int)
  | completeLevelOp (uid team lvl : String) (score : ℚ)
  | resetPoolOp (uid team : String)
  | genQuizOp (uid team lvl : String) (rs : List Nat) (bank : List Question)
  | submitPredictionOp (uid t1 t2 sport up : String) (rand : ℚ) (o : FailOracle)
  | recordAskedOp (uid team qid : String)
  | addBadgeOp (uid badge : String)
  | agentChatOp (uid msg resp : String)
      (pred : Option (String × String × String × String × String))
deriving DecidableEq

/-- The state transition of one operation. -/
def step (st : State) : Op → State
  | .createUserOp uid uname fav => (create_user st uid uname fav).1
  | .submitQuizOp req bank => (submit_quiz st req bank).1
  | .levelChoiceOp uid team lvl cont => level_choice st uid team lvl cont
  | .initProgressOp uid team => (create_quiz_progress st uid team).1
  | .updateProgressOp uid team lvl qi ls tc => update_progress st uid team lvl qi ls tc
  | .completeLevelOp uid team lvl score => mark_level_complete st uid team lvl score
  | .resetPoolOp uid team => reset_asked_questions st uid team
  | .genQuizOp uid team lvl rs bank => (generate_quiz st uid team lvl rs bank).1
  | .submitPredictionOp uid t1 t2 sport up rand o =>
      (submit_prediction st uid t1 t2 sport up rand o).1
  | .recordAskedOp uid team qid => record_asked_question st uid team qid
  | .addBadgeOp uid badge => add_badge st uid badge
  | .agentChatOp uid msg resp pred => agent_chat st uid msg resp pred

/-- Run a sequence of operations from the fresh store. -/
def runOps (ops : List Op) : State :=
  ops.foldl step emptyState

/-- The stored balance of a user (`0` when the row is absent, matching
what every read path reports for a missing user). -/
def userPoints (st : State) (uid : String) : Int :=
  ((get_user st uid).map (·.total_points)).getD 0

/-- Whether a `users` row for `uid` exists. -/
def userExists (st : State) (uid : String) : Bool :=
  st.users.any (fun r => r.user_id == uid)

/-! ### The point ledger -/

/-- The quiz points an operation credits to user `u` from pre-state
`st`: `10` per correct answer on a quiz submission, applied only when
the `users` row exists (otherwise the SQL `UPDATE` matches no row and
the award is lost). -/
def quizAward (u : String) (st : State) : Op → Int
  | .submitQuizOp req bank =>
      if u = req.user_id ∧ userExists st u then (correctCount req bank : Int) * 10 else 0
  | _ => 0

/-- The prediction points an operation credits to user `u` from
pre-state `st`: the evaluated award of a prediction submission, applied
only when the user row exists and the transaction commits. -/
def predAward (u : String) (st : State) : Op → Int
  | .submitPredictionOp uid t1 t2 sport up rand o =>
      if u = uid ∧ userExists st u ∧ o.succeeds then
        (evaluate_prediction up (generate_prediction t1 t2 sport rand).predicted_winner sport).2
      else 0
  | _ => 0

/-- Sum of all quiz awards credited to `u` along a run starting at
`st`. -/
def quizSum (u : String) : State → List Op → Int
  | _, [] => 0
  | st, op :: rest => quizAward u st op + quizSum u (step st op) rest

/-- Sum of all prediction awards credited to `u` along a run starting at
`st`. -/
def predSum (u : String) : State → List Op → Int
  | _, [] => 0
  | st, op :: rest => predAward u st op + predSum u (step st op) rest

/-- Balance read off an optional `users` row. -/
def rowPoints (o : Option UserRow) : Int :=
  (o.map (·.total_points)).getD 0

/-- The `current_level` stored for a `(user, team)` pair, read through
`get_quiz_progress`. -/
def storedLevel (st : State) (uid team : String) : Option DBVal :=
  (get_quiz_progress st uid team).map (·.current_level)

/-- Position of a level name in the Easy < Medium < Hard order. -/
def levelRank (l : String) : Nat :=
  if l == "Easy" then 0 else if l == "Medium" then 1 else if l == "Hard" then 2 else 0

/-- Number of `quiz_progress` rows stored for a `(user, team)` pair. -/
def countProgress (st : State) (uid team : String) : Nat :=
  (st.progress.filter fun r => r.user_id == uid && r.team == team).length

/-- Scenario data: a store holding a single user `u` with zero
points. -/
def singleUserState : State :=
  ⟨[⟨"u", "U", "General", 0, []⟩], [], [], [], [], [], []⟩

/-- Scenario data: a bank holding one Easy Lakers question `q1`. -/
def oneQuestionBank : List Question :=
  [⟨"q1", "Lakers", "Easy", "Who won the 2020 title?", ["Lakers", "Heat"], some 0, ""⟩]

/-- Scenario data: record question `q1` as asked to user `u` for the
Lakers. -/
def recordedAskedOps : List Op :=
  [.recordAskedOp "u" "Lakers" "q1"]

/-- Scenario data: the options shared by the five Easy Lakers questions
of the alice scenario. -/
def aliceOptions : List String := ["A", "B", "C", "D"]

/-- Scenario data: a bank of five Easy Lakers questions. -/
def aliceBank : List Question :=
  [⟨"e1", "Lakers", "Easy", "Q1?", aliceOptions, some 0, ""⟩,
   ⟨"e2", "Lakers", "Easy", "Q2?", aliceOptions, some 1, ""⟩,
   ⟨"e3", "Lakers", "Easy", "Q3?", aliceOptions, some 2, ""⟩,
   ⟨"e4", "Lakers", "Easy", "Q4?", aliceOptions, some 3, ""⟩,
   ⟨"e5", "Lakers", "Easy", "Q5?", aliceOptions, some 0, ""⟩]

/-- Scenario data: alice's Easy Lakers submission answering the first
four questions correctly and the fifth wrongly. -/
def aliceRequest : QuizRequest :=
  ⟨"alice", "Lakers", "Easy",
   [("0", "A"), ("1", "B"), ("2", "C"), ("3", "D"), ("4", "B")],
   [⟨"Q1?", aliceOptions, "e1", ""⟩, ⟨"Q2?", aliceOptions, "e2", ""⟩,
    ⟨"Q3?", aliceOptions, "e3", ""⟩, ⟨"Q4?", aliceOptions, "e4", ""⟩,
    ⟨"Q5?", aliceOptions, "e5", ""⟩]⟩

/-- Scenario data: a store holding only the user `alice` with zero
points. -/
def aliceState : State :=
  ⟨[⟨"alice", "Alice", "Lakers", 0, []⟩], [], [], [], [], [], []⟩

/-- Scenario data: a quiz submission for user `u`, team Lakers, carrying
no questions, at the given level. -/
def quizReq (lvl : String) : QuizRequest := ⟨"u", "Lakers", lvl, [], []⟩

/-- Scenario data: create user `u`, submit a Medium quiz (storing level
Hard), then submit an Easy quiz (storing level Medium again). -/
def backwardOps : List Op :=
  [.createUserOp "u" "U" "General",
   .submitQuizOp (quizReq "Medium") [],
   .submitQuizOp (quizReq "Easy") []]

/-- Scenario data: user `u` with an Easy-level progress row for the
Lakers. -/
def easyProgressState : State :=
  ⟨[⟨"u", "U", "General", 0, []⟩], [⟨"u", "Lakers", .dbStr "Easy", 0, 0, 0⟩],
   [], [], [], [], []⟩

/-- Scenario data: three users, two of them tied on points. -/
def tiedUsersState : State :=
  ⟨[⟨"u1", "A", "T", 50, []⟩, ⟨"u2", "B", "T", 50, []⟩, ⟨"u3", "C", "T", 10, []⟩],
   [], [], [], [], [], []⟩

/-- Scenario data: two asked-question records for different (user, team)
pairs. -/
def twoAskedState : State :=
  ⟨[], [], [], [⟨"u", "Lakers", "q1"⟩, ⟨"v", "Celtics", "q2"⟩], [], [], []⟩

theorem userPoints_eq_rowPoints (st : State) (u : String) :
    userPoints st u = rowPoints (st.users.find? (fun r => r.user_id == u)) := rfl

/-- Effect of the `update_user_points` row map on the balance read for
an arbitrary user. -/
theorem rowPoints_map_update (l : List UserRow) (uid : String) (p : Int) (u : String) :
    rowPoints ((l.map fun r =>
        if r.user_id == uid then { r with total_points := r.total_points + p } else r).find?
        (fun r => r.user_id == u))
      = rowPoints (l.find? (fun r => r.user_id == u)) +
        if u = uid ∧ (l.any fun r => r.user_id == u) = true then p else 0 := by
  have hpf : ((fun r : UserRow => r.user_id == u) ∘ fun r =>
      if r.user_id == uid then { r with total_points := r.total_points + p } else r)
      = (fun r : UserRow => r.user_id == u) := by
    funext r
    by_cases h : r.user_id = uid <;> simp [h]
  rw [List.find?_map, hpf]
  cases hf : l.find? (fun r => r.user_id == u) with
  | none =>
    have : (l.any fun r => r.user_id == u) = false := by
      rw [List.any_eq_false]
      intro r hr
      exact fun hru => by
        have := List.find?_eq_none.mp hf r hr
        exact this hru
    simp [this, rowPoints]
  | some r0 =>
    have hr0 := List.find?_some hf
    have hmem : r0 ∈ l := List.mem_of_find?_eq_some hf
    have hany : (l.any fun r => r.user_id == u) = true :=
      List.any_eq_true.mpr ⟨r0, hmem, hr0⟩
    have hr0u : r0.user_id = u := by simpa using hr0
    by_cases huid : u = uid
    · subst huid
      have hex : ∃ x ∈ l, x.user_id = u := ⟨r0, hmem, hr0u⟩
      simp [rowPoints, hr0u, hex]
    · have hcond : ¬(r0.user_id = uid) := by rw [hr0u]; exact huid
      simp [rowPoints, hcond, huid]

/-- Appending a zero-balance row does not change any read balance. -/
theorem rowPoints_append_zero (l : List UserRow) (r : UserRow) (h : r.total_points = 0)
    (u : String) :
    rowPoints ((l ++ [r]).find? (fun x => x.user_id == u))
      = rowPoints (l.find? (fun x => x.user_id == u)) := by
  rw [List.find?_append]
  cases hf : l.find? (fun x => x.user_id == u) with
  | none =>
    cases hr : [r].find? (fun x => x.user_id == u) with
    | none => simp [hr]
    | some r' =>
      have : r' = r := by
        cases List.mem_of_find?_eq_some hr with
        | head => rfl
        | tail _ h' => cases h'
      simp [hr, rowPoints, this, h]
  | some r0 => simp [hf]

/-- A row map that changes neither the key nor the balance leaves every
read balance unchanged. -/
theorem rowPoints_map_preserve (l : List UserRow) (f : UserRow → UserRow)
    (h1 : ∀ r, (f r).user_id = r.user_id) (h2 : ∀ r, (f r).total_points = r.total_points)
    (u : String) :
    rowPoints ((l.map f).find? (fun x => x.user_id == u))
      = rowPoints (l.find? (fun x => x.user_id == u)) := by
  have hpf : ((fun r : UserRow => r.user_id == u) ∘ f) = (fun r : UserRow => r.user_id == u) := by
    funext r; simp [h1 r]
  rw [List.find?_map, hpf]
  cases hf : l.find? (fun x => x.user_id == u) with
  | none => simp
  | some r0 => simp [rowPoints, h2 r0]

theorem users_create_quiz_progress (st : State) (uid team : String) :
    ((create_quiz_progress st uid team).1).users = st.users := by
  unfold create_quiz_progress
  split <;> rfl

theorem users_ensureProgress (st : State) (uid team : String) :
    (ensureProgress st uid team).users = st.users := by
  unfold ensureProgress
  split
  · rfl
  · exact users_create_quiz_progress st uid team

theorem userPoints_eq_of_users {st' st : State} (h : st'.users = st.users) (u : String) :
    userPoints st' u = userPoints st u := by
  unfold userPoints get_user
  rw [h]

theorem userExists_eq_of_users {st' st : State} (h : st'.users = st.users) (u : String) :
    userExists st' u = userExists st u := by
  unfold userExists
  rw [h]

theorem userPoints_update_user_points (st : State) (uid : String) (p : Int) (u : String) :
    userPoints (update_user_points st uid p) u
      = userPoints st u + if u = uid ∧ userExists st u = true then p else 0 := by
  rw [userPoints_eq_rowPoints, userPoints_eq_rowPoints]
  exact rowPoints_map_update st.users uid p u

theorem userPoints_create_user (st : State) (uid a b u : String) :
    userPoints ((create_user st uid a b).1) u = userPoints st u := by
  unfold create_user
  split
  · rfl
  · rw [userPoints_eq_rowPoints, userPoints_eq_rowPoints]
    exact rowPoints_append_zero st.users _ rfl u

theorem userPoints_add_badge (st : State) (uid b u : String) :
    userPoints (add_badge st uid b) u = userPoints st u := by
  rw [userPoints_eq_rowPoints, userPoints_eq_rowPoints]
  refine rowPoints_map_preserve st.users _ ?_ ?_ u <;>
    intro r <;> by_cases h : r.user_id == uid <;> simp [add_badge, h] <;> split <;> rfl

theorem users_submit_quiz (st : State) (req : QuizRequest) (bank : List Question) :
    ((submit_quiz st req bank).1).users =
      (update_user_points (ensureProgress st req.user_id req.team) req.user_id
        ((correctCount req bank : Int) * 10)).users := by
  simp [submit_quiz, add_quiz_points, add_quiz_attempt, update_quiz_progress, complete_level]

theorem users_level_choice (st : State) (uid team lvl : String) (cont : Bool) :
    (level_choice st uid team lvl cont).users = st.users := by
  unfold level_choice
  cases cont <;> cases levelChoiceNext lvl <;> rfl

theorem users_generate_quiz (st : State) (uid team lvl : String) (rs : List Nat)
    (bank : List Question) :
    ((generate_quiz st uid team lvl rs bank).1).users = st.users := by
  simp only [generate_quiz]
  split
  · rfl
  · split <;> exact users_ensureProgress st uid team

/-- Each operation changes a user's stored balance by exactly the
operation's quiz award plus its prediction award, and by nothing else. -/
theorem userPoints_step (st : State) (op : Op) (u : String) :
    userPoints (step st op) u = userPoints st u + quizAward u st op + predAward u st op := by
  cases op with
  | createUserOp uid uname fav =>
    simp [step, quizAward, predAward, userPoints_create_user]
  | submitQuizOp req bank =>
    have h1 := userPoints_eq_of_users (users_submit_quiz st req bank) u
    have h2 := userPoints_update_user_points (ensureProgress st req.user_id req.team)
      req.user_id ((correctCount req bank : Int) * 10) u
    have h3 := userPoints_eq_of_users (users_ensureProgress st req.user_id req.team) u
    have h4 := userExists_eq_of_users (users_ensureProgress st req.user_id req.team) u
    simp only [step, quizAward, predAward, add_zero]
    rw [h1, h2, h3, h4]
  | levelChoiceOp uid team lvl cont =>
    simp [step, quizAward, predAward, userPoints_eq_of_users (users_level_choice st uid team lvl cont) u]
  | initProgressOp uid team =>
    simp [step, quizAward, predAward, userPoints_eq_of_users (users_create_quiz_progress st uid team) u]
  | updateProgressOp uid team lvl qi ls tc =>
    simp [step, quizAward, predAward, update_progress, update_quiz_progress, userPoints, get_user]
  | completeLevelOp uid team lvl score =>
    simp [step, quizAward, predAward, mark_level_complete, update_quiz_progress, complete_level,
      userPoints, get_user]
  | resetPoolOp uid team =>
    simp [step, quizAward, predAward, reset_asked_questions, userPoints, get_user]
  | genQuizOp uid team lvl rs bank =>
    simp [step, quizAward, predAward,
      userPoints_eq_of_users (users_generate_quiz st uid team lvl rs bank) u]
  | submitPredictionOp uid t1 t2 sport up rand o =>
    simp only [step, quizAward, predAward, zero_add]
    unfold submit_prediction save_prediction
    rcases o with ⟨fi, fu, fc⟩
    cases fi with
    | true => simp [FailOracle.succeeds]
    | false =>
      cases fu with
      | true => simp [FailOracle.succeeds]
      | false =>
        cases fc with
        | true => simp [FailOracle.succeeds]
        | false =>
          simp only [Bool.false_eq_true, if_false, FailOracle.succeeds, Bool.not_false,
            Bool.and_self, and_true]
          set st1 : State := { st with predictions := st.predictions ++ [_] } with hst1
          have hu : st1.users = st.users := rfl
          rw [userPoints_update_user_points, userPoints_eq_of_users hu u,
            userExists_eq_of_users hu u]
          ring
  | recordAskedOp uid team qid =>
    simp only [step, quizAward, predAward, add_zero, zero_add]
    unfold record_asked_question
    split <;> simp [userPoints, get_user]
  | addBadgeOp uid badge =>
    simp [step, quizAward, predAward, userPoints_add_badge]
  | agentChatOp uid msg resp pred =>
    simp only [step, quizAward, predAward, add_zero, zero_add]
    unfold agent_chat
    have hchat : ∀ s : State, userPoints (add_chat_message s uid msg resp) u = userPoints s u := by
      intro s; rfl
    rcases pred with _ | ⟨t1, t2, w, sc, ex⟩
    · dsimp only
      split
      · exact hchat st
      · rw [hchat]
        exact userPoints_create_user st uid _ _ u
    · dsimp only
      split
      · rw [hchat]
        rfl
      · rw [hchat]
        have : userPoints (add_prediction ((create_user st uid ("User_" ++ uid.take 8) "General").1)
            uid t1 t2 w sc ex) u
            = userPoints ((create_user st uid ("User_" ++ uid.take 8) "General").1) u := rfl
        rw [this]
        exact userPoints_create_user st uid _ _ u

theorem foldl_ledger (ops : List Op) : ∀ (st : State) (u : String),
    userPoints (ops.foldl step st) u = userPoints st u + quizSum u st ops + predSum u st ops := by
  induction ops with
  | nil => intro st u; simp [quizSum, predSum]
  | cons op rest ih =>
    intro st u
    simp only [List.foldl_cons, quizSum, predSum]
    rw [ih (step st op) u, userPoints_step]
    ring

theorem progress_any_ensure (st : State) (uid team : String) :
    ((ensureProgress st uid team).progress.any
      (fun r => r.user_id == uid && r.team == team)) = true := by
  unfold ensureProgress
  split
  · rename_i h
    rcases Option.isSome_iff_exists.mp h with ⟨r, hr⟩
    unfold get_quiz_progress at hr
    have hp := List.find?_some hr
    exact List.any_eq_true.mpr ⟨r, List.mem_of_find?_eq_some hr, hp⟩
  · unfold create_quiz_progress
    split
    · rename_i h2
      exact h2
    · simp [List.any_append]

theorem progress_submit_quiz (st : State) (req : QuizRequest) (bank : List Question) :
    ((submit_quiz st req bank).1).progress
      = (ensureProgress st req.user_id req.team).progress.map
        (fun r => if r.user_id == req.user_id && r.team == req.team then
          { r with current_level := .dbStr (levelProgression req.level),
                   current_question_index := 0, level_score := 0, total_correct := 0 }
          else r) := by
  simp [submit_quiz, add_quiz_attempt, update_quiz_progress, complete_level, add_quiz_points,
    update_user_points]

theorem find?_progress_update (l : List ProgressRow) (uid team : String) (lvl : DBVal)
    (h : (l.any fun r => r.user_id == uid && r.team == team) = true) :
    ((l.map (fun r => if r.user_id == uid && r.team == team then
        { r with current_level := lvl, current_question_index := 0, level_score := 0,
                 total_correct := 0 } else r)).find?
      (fun r => r.user_id == uid && r.team == team)).map (·.current_level) = some lvl := by
  have hpf : ((fun r : ProgressRow => r.user_id == uid && r.team == team) ∘
      (fun r => if r.user_id == uid && r.team == team then
        { r with current_level := lvl, current_question_index := 0, level_score := 0,
                 total_correct := 0 } else r))
      = (fun r : ProgressRow => r.user_id == uid && r.team == team) := by
    funext r
    by_cases hc : (r.user_id == uid && r.team == team) = true
    · simp only [Function.comp_apply, if_pos hc]
    · simp only [Function.comp_apply, if_neg hc]
  rw [List.find?_map, hpf]
  cases hf : l.find? (fun r => r.user_id == uid && r.team == team) with
  | none =>
    rcases List.any_eq_true.mp h with ⟨r, hr, hpr⟩
    exact absurd hpr (by simpa using List.find?_eq_none.mp hf r hr)
  | some r0 =>
    have hp := List.find?_some hf
    simp only [Option.map_some']
    rw [if_pos hp]

theorem sampleAux_subset : ∀ (k : Nat) (rs : List Nat) (pool : List Question),
    ∀ q ∈ sampleAux k rs pool, q ∈ pool := by
  intro k
  induction k with
  | zero => intro rs pool q hq; simp [sampleAux] at hq
  | succ n ih =>
    intro rs pool q hq
    cases pool with
    | nil => simp [sampleAux] at hq
    | cons p ps =>
      simp only [sampleAux] at hq
      rcases List.mem_cons.mp hq with rfl | hq'
      · exact List.get_mem _ _ _
      · exact List.eraseIdx_subset _ _ (ih _ _ q hq')

theorem sampleAux_length : ∀ (k : Nat) (rs : List Nat) (pool : List Question),
    (sampleAux k rs pool).length = min k pool.length := by
  intro k
  induction k with
  | zero => intro rs pool; simp [sampleAux]
  | succ n ih =>
    intro rs pool
    cases pool with
    | nil => simp [sampleAux]
    | cons p ps =>
      simp only [sampleAux, List.length_cons]
      rw [ih]
      have hmod : rs.headD 0 % (ps.length + 1) < (p :: ps).length :=
        Nat.mod_lt _ (Nat.succ_pos ps.length)
      have hlen : ((p :: ps).eraseIdx (rs.headD 0 % (ps.length + 1))).length = ps.length := by
        rw [List.length_eraseIdx_of_lt hmod]
        simp
      rw [hlen]
      omega

theorem generate_prediction_winner (t1 t2 sport : String) (rand : ℚ) :
    (generate_prediction t1 t2 sport rand).predicted_winner = t1 ∨
    (generate_prediction t1 t2 sport rand).predicted_winner = t2 := by
  simp only [generate_prediction]
  split <;> split
  · exact Or.inl rfl
  · exact Or.inr rfl
  · exact Or.inl rfl
  · exact Or.inr rfl

/-! ### Claim theorems -/

/-- C1: at every reachable state of the store, every user's
`total_points` equals the sum of all quiz point awards plus the sum of
all prediction point awards ever applied to that user; moreover each
single operation changes the balance by exactly its quiz award plus its
prediction award, so no other operation changes `total_points`. -/
theorem total_points_ledger_invariant (ops : List Op) (u : String) :
    (∀ (st : State) (op : Op),
      userPoints (step st op) u = userPoints st u + quizAward u st op + predAward u st op) ∧
    userPoints (runOps ops) u = quizSum u emptyState ops + predSum u emptyState ops := by
  refine ⟨fun st op => userPoints_step st op u, ?_⟩
  have h := foldl_ledger ops emptyState u
  have h0 : userPoints emptyState u = 0 := rfl
  rw [runOps, h, h0, zero_add]

/-- C5: prediction evaluation is exact string equality between the
user's guess and the system outcome; soccer awards 50 points for a
correct `"Draw"` call and the lower 30 points for a correct non-draw
winner; other sports award 25 points for a correct winner; every
incorrect guess earns 0 points with `is_correct = false`. -/
theorem evaluate_prediction_rules (up so sport : String) :
    (sport = "soccer" → up = "Draw" → so = "Draw" →
        evaluate_prediction up so sport = (true, 50)) ∧
    (sport = "soccer" → up ≠ "Draw" → up = so →
        evaluate_prediction up so sport = (true, 30)) ∧
    (sport ≠ "soccer" → up = so → evaluate_prediction up so sport = (true, 25)) ∧
    (sport = "soccer" → up = "Draw" → so ≠ "Draw" →
        evaluate_prediction up so sport = (false, 0)) ∧
    (sport = "soccer" → up ≠ "Draw" → up ≠ so →
        evaluate_prediction up so sport = (false, 0)) ∧
    (sport ≠ "soccer" → up ≠ so → evaluate_prediction up so sport = (false, 0)) := by
  refine ⟨?_, ?_, ?_, ?_, ?_, ?_⟩
  · intro h1 h2 h3; simp [evaluate_prediction, h1, h2, h3]
  · intro h1 h2 h3; subst h3; simp [evaluate_prediction, h1, h2]
  · intro h1 h2; subst h2; simp [evaluate_prediction, h1]
  · intro h1 h2 h3; simp [evaluate_prediction, h1, h2, h3]
  · intro h1 h2 h3; simp [evaluate_prediction, h1, h2, h3]
  · intro h1 h2; simp [evaluate_prediction, h1, h2]

/-- Witness for C5: a correct soccer Draw call earns 50 points. -/
theorem evaluate_prediction_rules_witness :
    evaluate_prediction "Draw" "Draw" "soccer" = (true, 50) :=
  (evaluate_prediction_rules "Draw" "Draw" "soccer").1 rfl rfl rfl

/-- C4: `save_prediction` is all-or-nothing: when the transaction
commits, the prediction row is appended and the user's balance grows by
the awarded points; on any statement failure the store is exactly the
pre-call store — no partial prediction record or orphan point update
survives. -/
theorem save_prediction_atomic (st : State) (uid t1 t2 up so : String)
    (pts : Int) (expl sport : String) (o : FailOracle)
    (hu : userExists st uid = true) :
    ((save_prediction st uid t1 t2 up so pts expl sport o).2 = true →
      (save_prediction st uid t1 t2 up so pts expl sport o).1.predictions
          = st.predictions ++ [⟨uid, t1, t2, up, sport, expl, some so, pts⟩] ∧
      userPoints (save_prediction st uid t1 t2 up so pts expl sport o).1 uid
          = userPoints st uid + pts) ∧
    ((save_prediction st uid t1 t2 up so pts expl sport o).2 = false →
      (save_prediction st uid t1 t2 up so pts expl sport o).1 = st) := by
  rcases o with ⟨fi, fu, fc⟩
  cases fi with
  | true => simp [save_prediction]
  | false =>
    cases fu with
    | true => simp [save_prediction]
    | false =>
      cases fc with
      | true => simp [save_prediction]
      | false =>
        simp only [save_prediction, Bool.false_eq_true, if_false]
        refine ⟨fun _ => ⟨rfl, ?_⟩, by simp⟩
        set st1 : State := { st with predictions := st.predictions ++ [_] } with hst1
        have husers : st1.users = st.users := rfl
        rw [userPoints_update_user_points, userPoints_eq_of_users husers uid,
          userExists_eq_of_users husers uid, hu]
        simp

/-- Witness for C4: a committed prediction save for the single stored
user appends the row and adds the points. -/
theorem save_prediction_atomic_witness :
    (save_prediction singleUserState "u" "A" "B" "A" "A" 25 "" "nba" FailOracle.ok).2 = true ∧
    (save_prediction singleUserState "u" "A" "B" "A" "A" 25 "" "nba" FailOracle.ok).1.predictions
        = singleUserState.predictions ++ [⟨"u", "A", "B", "A", "nba", "", some "A", 25⟩] ∧
    userPoints (save_prediction singleUserState "u" "A" "B" "A" "A" 25 "" "nba"
        FailOracle.ok).1 "u"
        = userPoints singleUserState "u" + 25 :=
  ⟨by decide,
   ((save_prediction_atomic singleUserState "u" "A" "B" "A" "A" 25 "" "nba" FailOracle.ok
      (by decide)).1 (by decide)).1,
   ((save_prediction_atomic singleUserState "u" "A" "B" "A" "A" 25 "" "nba" FailOracle.ok
      (by decide)).1 (by decide)).2⟩

/-- C10: resetting asked questions for a (user, team) pair empties
exactly that pair's asked records, keeps every other pair's asked
records, and leaves all other tables (users, progress, completed
levels, predictions, quiz history, chat history) unchanged. -/
theorem reset_asked_questions_frame (st : State) (uid team : String) :
    get_asked_questions (reset_asked_questions st uid team) uid team = [] ∧
    (∀ u' t', (u' ≠ uid ∨ t' ≠ team) →
      get_asked_questions (reset_asked_questions st uid team) u' t'
        = get_asked_questions st u' t') ∧
    (reset_asked_questions st uid team).users = st.users ∧
    (reset_asked_questions st uid team).progress = st.progress ∧
    (reset_asked_questions st uid team).completed = st.completed ∧
    (reset_asked_questions st uid team).predictions = st.predictions ∧
    (reset_asked_questions st uid team).quizHistory = st.quizHistory ∧
    (reset_asked_questions st uid team).chatHistory = st.chatHistory := by
  refine ⟨?_, ?_, rfl, rfl, rfl, rfl, rfl, rfl⟩
  · simp [get_asked_questions, reset_asked_questions, List.filter_filter]
  · intro u' t' h
    simp only [get_asked_questions, reset_asked_questions, List.filter_filter]
    congr 1
    apply List.filter_congr
    intro r _
    cases hp : (r.user_id == u' && r.team == t') with
    | false => simp [hp]
    | true =>
      have hp' : r.user_id = u' ∧ r.team = t' := by simpa using hp
      have hfalse : (r.user_id == uid && r.team == team) = false := by
        rcases h with h | h <;> simp [hp'.1, hp'.2, h]
      simp [hp, hfalse]

/-- Witness for C10: resetting `("u", "Lakers")` clears that pair and
keeps the `("v", "Celtics")` record. -/
theorem reset_asked_questions_frame_witness :
    get_asked_questions (reset_asked_questions twoAskedState "u" "Lakers") "u" "Lakers" = [] ∧
    get_asked_questions (reset_asked_questions twoAskedState "u" "Lakers") "v" "Celtics"
        = get_asked_questions twoAskedState "v" "Celtics" :=
  ⟨(reset_asked_questions_frame twoAskedState "u" "Lakers").1,
   (reset_asked_questions_frame twoAskedState "u" "Lakers").2.1 "v" "Celtics"
     (Or.inl (by decide))⟩

/-- C7: initializing quiz progress is idempotent: given the store's
unique-(user, team) constraint, calling `create_quiz_progress` a second
time leaves the state produced by the first call unchanged, still
reports success, and exactly one progress row for the pair exists. -/
theorem create_quiz_progress_idempotent (st : State) (uid team : String)
    (h : countProgress st uid team ≤ 1) :
    (create_quiz_progress ((create_quiz_progress st uid team).1) uid team).1
        = (create_quiz_progress st uid team).1 ∧
    ((create_quiz_progress ((create_quiz_progress st uid team).1) uid team).2).success = true ∧
    countProgress ((create_quiz_progress ((create_quiz_progress st uid team).1) uid team).1)
        uid team = 1 := by
  cases hany : st.progress.any (fun r => r.user_id == uid && r.team == team) with
  | true =>
    have hc1 : countProgress st uid team = 1 := by
      rcases List.any_eq_true.mp hany with ⟨r, hr, hpr⟩
      have hmem : r ∈ st.progress.filter (fun r => r.user_id == uid && r.team == team) :=
        List.mem_filter.mpr ⟨hr, hpr⟩
      have hpos : 0 < countProgress st uid team := by
        unfold countProgress
        exact List.length_pos.mpr (List.ne_nil_of_mem hmem)
      omega
    simp [create_quiz_progress, hany, hc1]
  | false =>
    have hnil : st.progress.filter (fun r => r.user_id == uid && r.team == team) = [] := by
      rw [List.filter_eq_nil_iff]
      intro r hr
      have := List.any_eq_false.mp hany r hr
      simpa using this
    simp [create_quiz_progress, hany, List.any_append, countProgress, List.filter_append, hnil]

/-- Witness for C7 on the fresh store. -/
theorem create_quiz_progress_idempotent_witness :
    countProgress emptyState "u" "Lakers" ≤ 1 ∧
    (create_quiz_progress ((create_quiz_progress emptyState "u" "Lakers").1) "u" "Lakers").1
        = (create_quiz_progress emptyState "u" "Lakers").1 ∧
    ((create_quiz_progress ((create_quiz_progress emptyState "u" "Lakers").1) "u"
        "Lakers").2).success = true ∧
    countProgress ((create_quiz_progress ((create_quiz_progress emptyState "u" "Lakers").1)
        "u" "Lakers").1) "u" "Lakers" = 1 :=
  ⟨by decide,
   (create_quiz_progress_idempotent emptyState "u" "Lakers" (by decide)).1,
   (create_quiz_progress_idempotent emptyState "u" "Lakers" (by decide)).2.1,
   (create_quiz_progress_idempotent emptyState "u" "Lakers" (by decide)).2.2⟩

/-- C9: for every limit N the leaderboard holds at most N entries,
sorted by points in descending order, and the i-th returned entry's
rank is its 1-based position i+1 — so users with equal point totals get
distinct consecutive ranks. -/
theorem leaderboard_ranked (st : State) (limit : Nat) :
    (get_leaderboard st limit).length ≤ limit ∧
    (∀ i j (hi : i < (get_leaderboard st limit).length)
        (hj : j < (get_leaderboard st limit).length), i ≤ j →
      ((get_leaderboard st limit).get ⟨j, hj⟩).points
        ≤ ((get_leaderboard st limit).get ⟨i, hi⟩).points) ∧
    (∀ i (hi : i < (get_leaderboard st limit).length),
      ((get_leaderboard st limit).get ⟨i, hi⟩).rank = i + 1) := by
  have hlen : (get_leaderboard st limit).length
      = ((st.users.insertionSort byPointsDesc).take limit).length := by
    simp [get_leaderboard]
  refine ⟨?_, ?_, ?_⟩
  · rw [hlen, List.length_take]
    exact Nat.min_le_left _ _
  · intro i j hi hj hij
    have hi' : i < ((st.users.insertionSort byPointsDesc).take limit).length := hlen ▸ hi
    have hj' : j < ((st.users.insertionSort byPointsDesc).take limit).length := hlen ▸ hj
    have hsor : List.Sorted byPointsDesc ((st.users.insertionSort byPointsDesc).take limit) :=
      List.Pairwise.sublist (List.take_sublist _ _)
        (List.sorted_insertionSort byPointsDesc st.users)
    have hget : ∀ (k : Nat) (hk : k < (get_leaderboard st limit).length),
        ((get_leaderboard st limit).get ⟨k, hk⟩).points
          = (((st.users.insertionSort byPointsDesc).take limit).get ⟨k, hlen ▸ hk⟩).total_points := by
      intro k hk
      simp [get_leaderboard, List.get_eq_getElem, List.enum_eq_enumFrom]
    rw [hget i hi, hget j hj]
    rcases Nat.eq_or_lt_of_le hij with rfl | hlt
    · exact le_of_eq (by rfl)
    · exact hsor.rel_get_of_lt (show (⟨i, hi'⟩ : Fin _) < ⟨j, hj'⟩ from hlt)
  · intro i hi
    simp [get_leaderboard, List.get_eq_getElem, List.enum_eq_enumFrom]

/-- Witness for C9 at a three-user store with a points tie and limit 2:
at most 2 entries, descending points, positional ranks 1 and 2. -/
theorem leaderboard_ranked_witness :
    (get_leaderboard tiedUsersState 2).length ≤ 2 ∧
    ((get_leaderboard tiedUsersState 2).get ⟨1, by decide⟩).points
        ≤ ((get_leaderboard tiedUsersState 2).get ⟨0, by decide⟩).points ∧
    ((get_leaderboard tiedUsersState 2).get ⟨0, by decide⟩).rank = 1 ∧
    ((get_leaderboard tiedUsersState 2).get ⟨1, by decide⟩).rank = 2 :=
  ⟨(leaderboard_ranked tiedUsersState 2).1,
   (leaderboard_ranked tiedUsersState 2).2.1 0 1 (by decide) (by decide) (by decide),
   (leaderboard_ranked tiedUsersState 2).2.2 0 (by decide),
   (leaderboard_ranked tiedUsersState 2).2.2 1 (by decide)⟩

/-- C3: a 5-question quiz submission with exactly 4 correct answers at
Easy level reports `points_earned = 40` and `score = 80`, increments the
user's balance by 40, and stores `"Medium"` as the pair's current
level. -/
theorem submit_quiz_four_of_five (st : State) (req : QuizRequest) (bank : List Question)
    (h5 : req.questions.length = 5) (h4 : correctCount req bank = 4)
    (hl : req.level = "Easy") (hu : userExists st req.user_id = true) :
    ((submit_quiz st req bank).2).points_earned = 40 ∧
    ((submit_quiz st req bank).2).score = 80 ∧
    userPoints ((submit_quiz st req bank).1) req.user_id
        = userPoints st req.user_id + 40 ∧
    storedLevel ((submit_quiz st req bank).1) req.user_id req.team
        = some (.dbStr "Medium") := by
  refine ⟨?_, ?_, ?_, ?_⟩
  · show (correctCount req bank : Int) * 10 = 40
    rw [h4]
    norm_num
  · show (if req.questions.length > 0 then
        (correctCount req bank : ℚ) / (req.questions.length : ℚ) * 100 else 0) = 80
    rw [h4, h5]
    norm_num
  · have h1 := userPoints_eq_of_users (users_submit_quiz st req bank) req.user_id
    have h2 := userPoints_update_user_points (ensureProgress st req.user_id req.team)
      req.user_id ((correctCount req bank : Int) * 10) req.user_id
    have h3 := userPoints_eq_of_users (users_ensureProgress st req.user_id req.team) req.user_id
    have h4' := userExists_eq_of_users (users_ensureProgress st req.user_id req.team) req.user_id
    rw [h1, h2, h3, h4', hu, h4]
    norm_num
  · show ((get_quiz_progress (submit_quiz st req bank).1 req.user_id req.team).map
      (·.current_level)) = some (.dbStr "Medium")
    unfold get_quiz_progress
    rw [progress_submit_quiz]
    have := find?_progress_update
      ((ensureProgress st req.user_id req.team).progress) req.user_id req.team
      (.dbStr (levelProgression req.level)) (progress_any_ensure st req.user_id req.team)
    rw [this, hl]
    rfl

/-- Witness for C3: the concrete alice/Lakers scenario with 4 of 5
Easy questions answered correctly. -/
theorem submit_quiz_four_of_five_witness :
    correctCount aliceRequest aliceBank = 4 ∧
    ((submit_quiz aliceState aliceRequest aliceBank).2).points_earned = 40 ∧
    ((submit_quiz aliceState aliceRequest aliceBank).2).score = 80 ∧
    userPoints ((submit_quiz aliceState aliceRequest aliceBank).1) "alice"
        = userPoints aliceState "alice" + 40 ∧
    storedLevel ((submit_quiz aliceState aliceRequest aliceBank).1) "alice" "Lakers"
        = some (.dbStr "Medium") :=
  ⟨by decide,
   (submit_quiz_four_of_five aliceState aliceRequest aliceBank rfl (by decide) rfl
      (by decide)).1,
   (submit_quiz_four_of_five aliceState aliceRequest aliceBank rfl (by decide) rfl
      (by decide)).2.1,
   (submit_quiz_four_of_five aliceState aliceRequest aliceBank rfl (by decide) rfl
      (by decide)).2.2.1,
   (submit_quiz_four_of_five aliceState aliceRequest aliceBank rfl (by decide) rfl
      (by decide)).2.2.2⟩

/-- C2 (amended): `generate_quiz` draws its questions without
replacement from the **full** `(team, level)` pool — it never consults
the asked-question records (the response is unchanged under any
replacement of the `asked_questions` table), so previously recorded
questions can be returned again without any reset. -/
theorem generate_quiz_ignores_asked (st : State) (uid team lvl : String) (rs : List Nat)
    (bank : List Question) (asked' : List AskedRow) (resp : QuizGenResponse)
    (h : (generate_quiz st uid team lvl rs bank).2 = some resp) :
    (generate_quiz { st with asked := asked' } uid team lvl rs bank).2
        = (generate_quiz st uid team lvl rs bank).2 ∧
    (∀ q ∈ resp.questions, ∃ qb ∈ bank.filter
        (fun b => b.team == team && b.level == pyCapitalize lvl), Question.display qb = q) ∧
    resp.questions.length
        = min 10 (bank.filter (fun b => b.team == team && b.level == pyCapitalize lvl)).length := by
  constructor
  · by_cases h1 : (!(pyCapitalize lvl == "Easy" || pyCapitalize lvl == "Medium" ||
        pyCapitalize lvl == "Hard")) = true
    · simp [generate_quiz, h1]
    · by_cases h2 : (bank.filter (fun q => q.team == team && q.level == pyCapitalize lvl)).isEmpty
        = true
      · simp [generate_quiz, h1, h2]
      · simp [generate_quiz, h1, h2]
  · simp only [generate_quiz] at h
    by_cases h1 : (!(pyCapitalize lvl == "Easy" || pyCapitalize lvl == "Medium" ||
        pyCapitalize lvl == "Hard")) = true
    · simp [h1] at h
    · by_cases h2 : (bank.filter (fun q => q.team == team && q.level == pyCapitalize lvl)).isEmpty
        = true
      · simp [h1, h2] at h
      · simp only [h1, h2, Bool.false_eq_true, if_false] at h
        obtain rfl := Option.some.inj h
        constructor
        · intro q hq
          rcases List.mem_map.mp hq with ⟨qb, hqb, rfl⟩
          exact ⟨qb, sampleAux_subset _ _ _ qb hqb, rfl⟩
        · simp only [List.length_map, sampleAux_length]
          omega

/-- Counterexample to C2: question `q1` is recorded as asked to
`("u", "Lakers")`, no reset has occurred, and quiz generation for that
pair still returns `q1`. -/
theorem generate_quiz_returns_asked_question :
    "q1" ∈ get_asked_questions (runOps recordedAskedOps) "u" "Lakers" ∧
    ((generate_quiz (runOps recordedAskedOps) "u" "Lakers" "Easy" [0] oneQuestionBank).2).map
        (fun r => r.questions.map (·.id)) = some ["q1"] := by
  decide

/-- Witness for C2's amended theorem on the one-question scenario. -/
theorem generate_quiz_ignores_asked_witness :
    (generate_quiz { (runOps recordedAskedOps) with asked := [] } "u" "Lakers" "Easy" [0]
        oneQuestionBank).2
      = (generate_quiz (runOps recordedAskedOps) "u" "Lakers" "Easy" [0] oneQuestionBank).2 ∧
    (⟨"Easy", "Lakers", [⟨"q1", "Easy", "Lakers", "Who won the 2020 title?",
        ["Lakers", "Heat"], ""⟩], 1, 1⟩ : QuizGenResponse).questions.length
      = min 10 (oneQuestionBank.filter
          (fun b => b.team == "Lakers" && b.level == pyCapitalize "Easy")).length :=
  ⟨(generate_quiz_ignores_asked (runOps recordedAskedOps) "u" "Lakers" "Easy" [0]
      oneQuestionBank [] ⟨"Easy", "Lakers", [⟨"q1", "Easy", "Lakers",
        "Who won the 2020 title?", ["Lakers", "Heat"], ""⟩], 1, 1⟩ (by decide)).1,
   (generate_quiz_ignores_asked (runOps recordedAskedOps) "u" "Lakers" "Easy" [0]
      oneQuestionBank [] ⟨"Easy", "Lakers", [⟨"q1", "Easy", "Lakers",
        "Who won the 2020 title?", ["Lakers", "Heat"], ""⟩], 1, 1⟩ (by decide)).2.2⟩

/-- C6 (amended): the level-progression map moves only
Easy→Medium→Hard, with Hard terminal; when a quiz submission carries
the pair's stored level, the stored level advances by exactly that map —
never backward, never skipping.  (The next level is computed from the
request's level and `update_progress` overwrites unconditionally, so
requests carrying a different level can move the stored level
backward — see the counterexample.) -/
theorem submit_quiz_level_forward (st : State) (req : QuizRequest) (bank : List Question)
    (cur : String) (hcur : cur = "Easy" ∨ cur = "Medium" ∨ cur = "Hard")
    (hreq : req.level = cur)
    (hstored : storedLevel st req.user_id req.team = some (.dbStr cur)) :
    storedLevel ((submit_quiz st req bank).1) req.user_id req.team
        = some (.dbStr (levelProgression cur)) ∧
    levelRank cur ≤ levelRank (levelProgression cur) ∧
    levelRank (levelProgression cur) ≤ levelRank cur + 1 ∧
    (cur = "Hard" → levelProgression cur = "Hard") := by
  refine ⟨?_, ?_, ?_, ?_⟩
  · show ((get_quiz_progress (submit_quiz st req bank).1 req.user_id req.team).map
      (·.current_level)) = some (.dbStr (levelProgression cur))
    unfold get_quiz_progress
    rw [progress_submit_quiz]
    have := find?_progress_update ((ensureProgress st req.user_id req.team).progress)
      req.user_id req.team (.dbStr (levelProgression req.level))
      (progress_any_ensure st req.user_id req.team)
    rw [this, hreq]
  · rcases hcur with rfl | rfl | rfl <;> decide
  · rcases hcur with rfl | rfl | rfl <;> decide
  · intro hh; subst hh; decide

/-- Witness for C6's amended theorem: a stored Easy level advances to
Medium on an Easy submission. -/
theorem submit_quiz_level_forward_witness :
    storedLevel easyProgressState "u" "Lakers" = some (.dbStr "Easy") ∧
    storedLevel ((submit_quiz easyProgressState (quizReq "Easy") []).1) "u" "Lakers"
        = some (.dbStr "Medium") ∧
    levelRank (levelProgression "Easy") ≤ levelRank "Easy" + 1 :=
  ⟨by decide,
   ((submit_quiz_level_forward easyProgressState (quizReq "Easy") [] "Easy" (Or.inl rfl) rfl
      (by decide)).1).trans (by decide),
   (submit_quiz_level_forward easyProgressState (quizReq "Easy") [] "Easy" (Or.inl rfl) rfl
      (by decide)).2.2.1⟩

/-- Counterexample to C6: after submitting a Medium-level quiz the
stored level is Hard; a later submission claiming Easy level moves the
stored level back to Medium — a backward transition reachable through
the exposed quiz-submission operation. -/
theorem stored_level_moves_backward :
    storedLevel (runOps (backwardOps.take 2)) "u" "Lakers" = some (.dbStr "Hard") ∧
    storedLevel (runOps backwardOps) "u" "Lakers" = some (.dbStr "Medium") ∧
    levelRank "Medium" < levelRank "Hard" := by
  decide

/-- C8 (amended): the system-generated outcome is always one of the two
input team names; provided neither input team is literally named
`"Draw"`, the outcome is never the string `"Draw"`, and a user
prediction of `"Draw"` submitted through `submit_prediction` evaluates
as incorrect with 0 points.  (A client may name a team `"Draw"`, in
which case a Draw guess can win — see the counterexample.) -/
theorem predicted_winner_is_input_team (st : State) (uid t1 t2 sport : String)
    (rand : ℚ) (o : FailOracle) :
    ((generate_prediction t1 t2 sport rand).predicted_winner = t1 ∨
     (generate_prediction t1 t2 sport rand).predicted_winner = t2) ∧
    (t1 ≠ "Draw" → t2 ≠ "Draw" →
      (generate_prediction t1 t2 sport rand).predicted_winner ≠ "Draw" ∧
      ((submit_prediction st uid t1 t2 sport "Draw" rand o).2).is_correct = false ∧
      ((submit_prediction st uid t1 t2 sport "Draw" rand o).2).points_earned = 0) := by
  refine ⟨generate_prediction_winner t1 t2 sport rand, fun h1 h2 => ?_⟩
  have hso : (generate_prediction t1 t2 sport rand).predicted_winner ≠ "Draw" := by
    rcases generate_prediction_winner t1 t2 sport rand with h | h <;> rw [h] <;> assumption
  have heval : evaluate_prediction "Draw"
      (generate_prediction t1 t2 sport rand).predicted_winner sport = (false, 0) := by
    unfold evaluate_prediction
    by_cases hs : (sport == "soccer") = true
    · simp [hs, hso]
    · have : ("Draw" : String) ≠ (generate_prediction t1 t2 sport rand).predicted_winner :=
        fun hh => hso hh.symm
      simp [hs, this]
  have hic : ((submit_prediction st uid t1 t2 sport "Draw" rand o).2).is_correct
      = (evaluate_prediction "Draw"
          (generate_prediction t1 t2 sport rand).predicted_winner sport).1 := rfl
  have hpe : ((submit_prediction st uid t1 t2 sport "Draw" rand o).2).points_earned
      = (evaluate_prediction "Draw"
          (generate_prediction t1 t2 sport rand).predicted_winner sport).2 := rfl
  exact ⟨hso, by rw [hic, heval], by rw [hpe, heval]⟩

/-- Counterexample to C8: with a team literally named `"Draw"`, the
generated outcome can be `"Draw"` and a Draw guess submitted through
`submit_prediction` is scored correct with 50 points. -/
theorem draw_named_team_can_win :
    (generate_prediction "Draw" "Barcelona" "soccer" 0).predicted_winner = "Draw" ∧
    ((submit_prediction emptyState "u" "Draw" "Barcelona" "soccer" "Draw" 0
        FailOracle.ok).2).is_correct = true ∧
    ((submit_prediction emptyState "u" "Draw" "Barcelona" "soccer" "Draw" 0
        FailOracle.ok).2).points_earned = 50 := by
  have h1 : lookupTeam "Draw" = ⟨50, 50, 5, ["Player 1"]⟩ := by decide
  have h2 : lookupTeam "Barcelona" = ⟨3, 92, 8, ["Lewandowski", "Pedri", "Garcia"]⟩ := by
    decide
  have hwinner : (generate_prediction "Draw" "Barcelona" "soccer" 0).predicted_winner
      = "Draw" := by
    simp only [generate_prediction, h1, h2]
    norm_num [teamScore]
  refine ⟨hwinner, ?_, ?_⟩
  · have hic : ((submit_prediction emptyState "u" "Draw" "Barcelona" "soccer" "Draw" 0
        FailOracle.ok).2).is_correct
        = (evaluate_prediction "Draw"
            (generate_prediction "Draw" "Barcelona" "soccer" 0).predicted_winner "soccer").1 :=
      rfl
    rw [hic, hwinner]
    decide
  · have hpe : ((submit_prediction emptyState "u" "Draw" "Barcelona" "soccer" "Draw" 0
        FailOracle.ok).2).points_earned
        = (evaluate_prediction "Draw"
            (generate_prediction "Draw" "Barcelona" "soccer" 0).predicted_winner "soccer").2 :=
      rfl
    rw [hpe, hwinner]
    decide

/-- Witness for C8's amended theorem on an NBA matchup. -/
theorem predicted_winner_is_input_team_witness :
    ((generate_prediction "Los Angeles Lakers" "Boston Celtics" "nba" 0).predicted_winner
        = "Los Angeles Lakers" ∨
     (generate_prediction "Los Angeles Lakers" "Boston Celtics" "nba" 0).predicted_winner
        = "Boston Celtics") ∧
    (generate_prediction "Los Angeles Lakers" "Boston Celtics" "nba" 0).predicted_winner
        ≠ "Draw" ∧
    ((submit_prediction emptyState "u" "Los Angeles Lakers" "Boston Celtics" "nba" "Draw" 0
        FailOracle.ok).2).is_correct = false ∧
    ((submit_prediction emptyState "u" "Los Angeles Lakers" "Boston Celtics" "nba" "Draw" 0
        FailOracle.ok).2).points_earned = 0 :=
  ⟨(predicted_winner_is_input_team emptyState "u" "Los Angeles Lakers" "Boston Celtics"
      "nba" 0 FailOracle.ok).1,
   ((predicted_winner_is_input_team emptyState "u" "Los Angeles Lakers" "Boston Celtics"
      "nba" 0 FailOracle.ok).2 (by decide) (by decide)).1,
   ((predicted_winner_is_input_team emptyState "u" "Los Angeles Lakers" "Boston Celtics"
      "nba" 0 FailOracle.ok).2 (by decide) (by decide)).2.1,
   ((predicted_winner_is_input_team emptyState "u" "Los Angeles Lakers" "Boston Celtics"
      "nba" 0 FailOracle.ok).2 (by decide) (by decide)).2.2⟩

end FanEngagement
